import Mathlib

/-!
Verification of the tabular filter/aggregate/export pipeline of
`src/streamlit_app.py` (ESMA Regulatory Data Explorer).

The script's data lives in pandas DataFrames; we embed a DataFrame as a
`Table` of rows, each row an association list from column name to a scalar
`Value` (string, datetime, or null/NaN).  The pandas operations the script
uses are embedded one by one next to the line they come from:

* `df[df[c].astype(str).str.contains(needle, ...)]`  → `substrFilter`
* `pd.to_datetime(s, errors="coerce").dt.tz_localize(None)` → `coerceDatetime`
* `df[(df[c] >= start) & (df[c] <= end)]`            → `dateRangeFilter`
* `df[c] = ...` (in-place column assignment)         → `assignCol`
* `df.groupby(c).size()` (default `dropna=True`, sorted keys) → `groupbySize`
* `df.groupby(c, as_index=False).agg({...: "first"})` → `groupbyFirst`
* `df.head(n)`                                        → `headN`
* `df.to_csv(index=False)`                            → `toCsvRows`
* `pd.concat([a, b], ignore_index=True)`              → `concatTables`

Each Streamlit panel (MiFID, FIRDS, SSR, freshness footer) is embedded as a
function from the collaborator's outcome (`Except String Table`, where
`Except.error` models a raised exception) and the widget inputs to the list
of UI messages the panel emits; the panel's `try`/`except` boundary becomes
an explicit catch that turns an error into one `Msg.err` message.
-/

namespace EsmaApp

/-- A scalar cell value: a string, a datetime (modelled as an integer
timestamp; pandas NaT is `vnull`), or null/NaN. -/
inductive Value where
  | vstr  : String → Value
  | vdate : Int → Value
  | vnull : Value
deriving DecidableEq

/-- A row: an association list from column name to cell value. -/
abbrev Row := List (String × Value)

/-- A DataFrame: an ordered column list and an ordered row list. -/
structure Table where
  cols : List String
  rows : List Row
deriving DecidableEq

/-- Look a column up in a row (`None` when the key is absent). -/
def rowGet (r : Row) (c : String) : Option Value :=
  (r.find? (fun p => p.1 == c)).map (fun p => p.2)

/-- Read a cell; a key absent from the row reads as NaN, which models the
NaN fill that `pd.concat` applies to columns missing from one operand. -/
def cell (r : Row) (c : String) : Value :=
  (rowGet r c).getD Value.vnull

/-- Write one cell of a row: replace the existing entry for the column, or
append the column when the row does not have it yet (pandas keeps an
existing column in place and appends a new one at the end). -/
def setCell (r : Row) (c : String) (v : Value) : Row :=
  if (rowGet r c).isSome then
    r.map (fun p => if p.1 == c then (c, v) else p)
  else r ++ [(c, v)]

/-- Column assignment `df[c] = f(row)` — the in-place column writes at
lines 35, 64 and 133–134 of the script.  The result is the post-state of
the mutated frame: every row gets the new cell, and a column not present
before is appended to the column list. -/
def assignCol (t : Table) (c : String) (f : Row → Value) : Table :=
  { cols := if t.cols.contains c then t.cols else t.cols ++ [c],
    rows := t.rows.map (fun r => setCell r c (f r)) }

/-- `df.empty` as the script uses it (lines 32, 85, 119): the frames there
come from the loader or from `pd.concat`, so emptiness is decided by the
row count. -/
def dfEmpty (t : Table) : Bool := t.rows.isEmpty

/-- `df.head(n)` (lines 74, 99, 109, 129): the first `n` rows. -/
def headN (t : Table) (n : Nat) : Table :=
  { t with rows := t.rows.take n }

/-- `pd.concat([t1, t2], ignore_index=True)` (line 65): rows appended,
columns the union in first-appearance order; cells a row lacks read as NaN
via `cell`. -/
def concatTables (t1 t2 : Table) : Table :=
  { cols := t1.cols ++ t2.cols.filter (fun c => !t1.cols.contains c),
    rows := t1.rows ++ t2.rows }

/-- The `pd.DataFrame()` accumulator of line 56. -/
def emptyDF : Table := { cols := [], rows := [] }

/-- Lowercase a string character by character (`str.lower`). -/
def strLower (s : String) : String := String.mk (s.data.map Char.toLower)

/-- Uppercase a string character by character (Python `str.upper()`,
lines 90–91). -/
def strUpper (s : String) : String := String.mk (s.data.map Char.toUpper)

/-- Python `str.strip()` (lines 90, 91, 124): drop leading and trailing
whitespace. -/
def stripStr (s : String) : String :=
  String.mk (((s.data.dropWhile Char.isWhitespace).reverse.dropWhile
    Char.isWhitespace).reverse)

/-- Python falsiness of a string (`if isin:` at lines 93, 95, 125): the
empty string is falsy. -/
def strIsEmpty (s : String) : Bool := s.data.isEmpty

/-- The first list is an initial segment of the second. -/
def leadsWith : List Char → List Char → Bool
  | [], _ => true
  | _ :: _, [] => false
  | a :: as, b :: bs => a == b && leadsWith as bs

/-- The needle occurs as a contiguous run somewhere in the haystack. -/
def occursIn (needle : List Char) : List Char → Bool
  | [] => needle.isEmpty
  | b :: bs => leadsWith needle (b :: bs) || occursIn needle bs

/-- Literal substring test: `needle` occurs in `hay`. -/
def containsSubstr (hay needle : String) : Bool :=
  occursIn needle.data hay.data

/-- The metacharacters of Python `re` patterns. -/
def regexMetaChars : List Char :=
  ['.', '^', '$', '*', '+', '?', Char.ofNat 123, Char.ofNat 125,
   '[', ']', '(', ')', '|', '\\']

/-- Whether a needle contains no regex metacharacter.  `str.contains`
compiles the needle as a regular expression (the pandas default
`regex=True`); on metacharacter-free needles the compiled pattern denotes
the needle itself, and `re.search` coincides with literal substring
search.  Needles with metacharacters can match non-substrings (`"."`) or
raise `re.error` (`"("`). -/
def regexFree (s : String) : Bool :=
  s.data.all (fun ch => !(regexMetaChars.contains ch))

/-- `Series.str.contains(needle, case=...)` on a metacharacter-free
needle: case-sensitive by default (the pandas default `case=True`); with
`case=False` both sides are lowercased first.  On this fragment the regex
search is exactly a literal substring test. -/
def strContains (caseSensitive : Bool) (hay needle : String) : Bool :=
  if caseSensitive then containsSubstr hay needle
  else containsSubstr (strLower hay) (strLower needle)

/-- `astype(str)` on one cell: strings unchanged, datetimes rendered, and
NaN rendered as the string `"nan"` (pandas stringifies missing values, so
after `astype(str)` the `na=` flag of `str.contains` has nothing to act
on). -/
def astypeStr : Value → String
  | Value.vstr s => s
  | Value.vdate d => toString d
  | Value.vnull => "nan"

/-- `df[df[c].astype(str).str.contains(needle, ...)]` (lines 94, 96, 126):
selecting `df[c]` raises a `KeyError` when the column is absent — before
the needle is ever looked at; otherwise the user-supplied needle is
compiled as a regex, and on the metacharacter-free fragment the rows whose
stringified cell contains the needle literally are kept.  A needle with a
metacharacter is outside this embedding: pandas would interpret it as a
regular expression (possibly matching non-substrings, possibly raising
`re.error`), so the model maps it to an error rather than silently
assigning it literal-substring semantics. -/
def substrFilter (t : Table) (c needle : String) (caseSensitive : Bool) :
    Except String Table :=
  if t.cols.contains c then
    if regexFree needle then
      Except.ok { t with
        rows := t.rows.filter (fun r =>
          strContains caseSensitive (astypeStr (cell r c)) needle) }
    else Except.error "re: needle outside the modelled metacharacter-free fragment"
  else Except.error ("KeyError: " ++ c)

/-- FIRDS ISIN filter (lines 90, 93–94): the input is stripped and
uppercased; an empty input skips the filter; `str.contains` is called
without `case=False`, so the match is case-sensitive. -/
def firdsFilterIsin (t : Table) (userInput : String) : Except String Table :=
  let isin := strUpper (stripStr userInput)
  if strIsEmpty isin then Except.ok t
  else substrFilter t "isin" isin true

/-- FIRDS CFI filter (lines 91, 95–96): same shape as the ISIN filter,
case-sensitive on the uppercased needle. -/
def firdsFilterCfi (t : Table) (userInput : String) : Except String Table :=
  let cfi := strUpper (stripStr userInput)
  if strIsEmpty cfi then Except.ok t
  else substrFilter t "cfi_code" cfi true

/-- SSR issuer filter (lines 124–126): input stripped, empty input skips
the filter, and `str.contains(issuer, case=False, na=False)` makes the
match case-insensitive. -/
def ssrFilterIssuer (t : Table) (userInput : String) : Except String Table :=
  let issuer := stripStr userInput
  if strIsEmpty issuer then Except.ok t
  else substrFilter t "issuer_name" issuer false

/-- One cell under `safe_datetime` (lines 13–14,
`pd.to_datetime(series, errors="coerce")`): values that denote a valid
datetime are modelled as already-parsed `vdate` timestamps and survive;
null and unparseable values coerce to NaT (`vnull`) instead of raising. -/
def coerceDatetime : Value → Value
  | Value.vdate d => Value.vdate d
  | _ => Value.vnull

/-- Line 35, `files["publication_date"] = safe_datetime(files["publication_date"])`:
reading the column raises a `KeyError` when it is absent; otherwise the
column is rewritten in place with the coerced values. -/
def mifidCoercePubDate (t : Table) : Except String Table :=
  if t.cols.contains "publication_date" then
    Except.ok (assignCol t "publication_date"
      (fun r => coerceDatetime (cell r "publication_date")))
  else Except.error "KeyError: publication_date"

/-- Lines 46–49, `files[(files[c] >= start) & (files[c] <= end)]`: a row is
kept when its cell is a datetime inside the inclusive bounds; a NaT cell
compares as `False` on both sides and the row is dropped. -/
def dateRangeFilter (t : Table) (c : String) (startD endD : Int) :
    Except String Table :=
  if t.cols.contains c then
    Except.ok { t with rows := t.rows.filter (fun r =>
      match cell r c with
      | Value.vdate d => decide (startD ≤ d) && decide (d ≤ endD)
      | _ => false) }
  else Except.error ("KeyError: " ++ c)

/-- The MiFID date pipeline: coerce the publication dates (line 35), then
apply the inclusive range filter (lines 46–49). -/
def mifidDateFilter (t : Table) (startD endD : Int) : Except String Table :=
  match mifidCoercePubDate t with
  | Except.error e => Except.error e
  | Except.ok t1 => dateRangeFilter t1 "publication_date" startD endD

/-- Whether a raw publication-date cell survives the coerce-then-filter
pipeline for the inclusive bounds `[startD, endD]`. -/
def dateKept (v : Value) (startD endD : Int) : Bool :=
  match coerceDatetime v with
  | Value.vdate d => decide (startD ≤ d) && decide (d ≤ endD)
  | _ => false

/-- Line 134, `.dt.to_period("M").astype(str)` on one (already coerced)
cell: the calendar is abstracted by bucketing timestamps into fixed-width
months; NaT stringifies to `"NaT"`, a plain non-null string. -/
def monthStr : Value → String
  | Value.vdate d => toString (Int.ediv d 30)
  | _ => "NaT"

/-- Lexicographic order on character lists, used to model the ascending
key order that `groupby(sort=True)` gives its groups. -/
def leChars : List Char → List Char → Bool
  | [], _ => true
  | _ :: _, [] => false
  | a :: as, b :: bs => if a == b then leChars as bs else decide (a < b)

/-- Lexicographic order on strings. -/
def leStr (a b : String) : Bool := leChars a.data b.data

/-- Insert into a sorted list, keeping it sorted. -/
def insertSorted (a : String) : List String → List String
  | [] => [a]
  | b :: bs => if leStr a b then a :: b :: bs else b :: insertSorted a bs

/-- Sort the group keys ascending (insertion sort). -/
def sortKeys : List String → List String
  | [] => []
  | a :: as => insertSorted a (sortKeys as)

/-- The group keys of a column in row order: string cells are the keys;
null cells yield no key, because `groupby` defaults to `dropna=True` and
silently drops rows whose key is missing.  Only string-keyed grouping
columns are modelled — the script groups by `isin` (a string column) and
by `month` (built with `astype(str)`, hence always a string); a
datetime-keyed `groupby` is outside this embedding. -/
def groupKeys (t : Table) (c : String) : List String :=
  t.rows.filterMap (fun r =>
    match cell r c with
    | Value.vstr s => some s
    | _ => none)

/-- `df.groupby(c).size().reset_index(name="count")` (line 135): one
`(key, count)` pair per distinct non-null key, keys in sorted order
(the pandas default `sort=True`). -/
def groupbySize (t : Table) (c : String) : Except String (List (String × Nat)) :=
  if t.cols.contains c then
    let ks := groupKeys t c
    Except.ok ((sortKeys ks.dedup).map (fun k => (k, ks.count k)))
  else Except.error ("KeyError: " ++ c)

/-- The pandas `"first"` aggregator on one column of a group: the first
non-null entry of the column among the group rows in original order, or
NaN when the column is entirely null within the group. -/
def firstNonNull (grp : List Row) (c : String) : Value :=
  match grp.filterMap (fun r =>
      match cell r c with
      | Value.vnull => none
      | v => some v) with
  | [] => Value.vnull
  | v :: _ => v

/-- `df.groupby(keyCol, as_index=False).agg({v: "first", ...})`
(lines 104–108): one output row per distinct non-null key in sorted key
order, taking each value column as its first non-null entry within the
group (in original row order); rows whose key is null are dropped
(`dropna=True`). -/
def groupbyFirst (t : Table) (keyCol : String) (valCols : List String) :
    Except String Table :=
  if t.cols.contains keyCol && valCols.all (fun c => t.cols.contains c) then
    let ks := groupKeys t keyCol
    Except.ok
      { cols := keyCol :: valCols,
        rows := (sortKeys ks.dedup).map (fun k =>
          (keyCol, Value.vstr k) :: valCols.map (fun c =>
            (c, firstNonNull
              (t.rows.filter (fun r => cell r keyCol == Value.vstr k)) c))) }
  else Except.error ("KeyError: " ++ keyCol)

/-- Lines 133–134: the two in-place column writes that prepare the SSR
monthly trend — coerce `publication_date`, then add the `month` column. -/
def ssrPrepareTrend (t : Table) : Table :=
  let t1 := assignCol t "publication_date"
    (fun r => coerceDatetime (cell r "publication_date"))
  assignCol t1 "month" (fun r => Value.vstr (monthStr (cell r "publication_date")))

/-- One cell under `to_csv`: NaN serializes to the empty field, other
scalars to their string rendering. -/
def csvCellStr : Value → String
  | Value.vstr s => s
  | Value.vdate d => toString d
  | Value.vnull => ""

/-- One CSV data row: the cells of `r` in the table's column order. -/
def csvRow (cols : List String) (r : Row) : List String :=
  cols.map (fun c => csvCellStr (cell r c))

/-- `df.to_csv(index=False)` (lines 75, 100, 110, 130) as its list of CSV
records: the header row (the column names) followed by one data row per
table row, in the table's row order. -/
def toCsvRows (t : Table) : List (List String) :=
  t.cols :: t.rows.map (csvRow t.cols)

/-- Python truthiness of the value `row.get(k)` yields: `None` (absent
key) and the empty string are falsy; a non-empty string and a datetime are
truthy; so is NaN (`float("nan")` is truthy in Python). -/
def pyTruthy : Option Value → Bool
  | none => false
  | some (Value.vstr s) => !s.isEmpty
  | some (Value.vdate _) => true
  | some Value.vnull => true

/-- Line 59, `url = row.get("download_link") or row.get("downloadUrl")`:
the first operand when it is truthy, the second otherwise. -/
def rowUrl (r : Row) : Option Value :=
  if pyTruthy (rowGet r "download_link") then rowGet r "download_link"
  else rowGet r "downloadUrl"

/-- A UI message the app emits: a warning banner, an error banner, a
header/caption, a rendered table, a download button (file name and CSV
records), or a chart of `(month, count)` points. -/
inductive Msg where
  | warn : String → Msg
  | err : String → Msg
  | header : String → Msg
  | dataframe : Table → Msg
  | download : String → List (List String) → Msg
  | chart : List (String × Nat) → Msg
deriving DecidableEq

/-- The download-and-combine loop of lines 56–65.  `dl` is the
collaborator `edl.download_file`, which may raise.  For each selected file
name: take the first metadata row with that `file_name` (`iloc[0]` raises
an IndexError when there is none); compute the URL; when the URL is falsy,
emit a warning and continue with the next file; otherwise download, tag
every downloaded row with a `source_file` column holding the file name,
and append to the accumulator. -/
def downloadLoop (filtered : Table) (dl : Value → Except String Table) :
    List String → Table → List Msg → Except String (Table × List Msg)
  | [], combined, msgs => Except.ok (combined, msgs)
  | fname :: rest, combined, msgs =>
    match filtered.rows.filter (fun r => cell r "file_name" == Value.vstr fname) with
    | [] => Except.error "IndexError: single positional indexer is out-of-bounds"
    | r :: _ =>
      if pyTruthy (rowUrl r) then
        match dl ((rowUrl r).getD Value.vnull) with
        | Except.error e => Except.error e
        | Except.ok df =>
          downloadLoop filtered dl rest
            (concatTables combined (assignCol df "source_file" (fun _ => Value.vstr fname)))
            msgs
      else
        downloadLoop filtered dl rest combined
          (msgs ++ [Msg.warn ("No download URL for " ++ fname)])

/-- The MiFID panel body (lines 31–76), given the already-loaded file
list: warn and stop when the table is empty; otherwise coerce the
publication dates, apply the inclusive date-range filter, render the count
and the filtered table, and — when the download button is pressed — run
the download loop and render the combined preview (first 100 rows) and the
full CSV download.  The free-text search widget of lines 69–73 is outside
the claims and is not modelled.  `Except.error` models an exception
escaping to the panel's `except` clause. -/
def mifidBody (files : Table) (startD endD : Int) (button : Bool)
    (selected : List String) (dl : Value → Except String Table) :
    Except String (List Msg) :=
  if dfEmpty files then Except.ok [Msg.warn "No MiFID metadata found."]
  else
    match mifidDateFilter files startD endD with
    | Except.error e => Except.error e
    | Except.ok filtered =>
      let base := [Msg.header (toString filtered.rows.length ++ " files found"),
                   Msg.dataframe filtered]
      if button then
        match downloadLoop filtered dl selected emptyDF [] with
        | Except.error e => Except.error e
        | Except.ok (combined, warns) =>
          if !dfEmpty combined then
            Except.ok (base ++ warns ++
              [Msg.dataframe (headN combined 100),
               Msg.download "mifid_combined.csv" (toCsvRows combined)])
          else Except.ok (base ++ warns)
      else Except.ok base

/-- The MiFID panel with its `try`/`except` boundary (lines 30, 77–78):
a collaborator exception, or any exception in the body, becomes the single
error banner `st.error(f"MiFID error: {e}")`. -/
def mifidPanel (load : Except String Table) (startD endD : Int) (button : Bool)
    (selected : List String) (dl : Value → Except String Table) : List Msg :=
  match (match load with
         | Except.error e => Except.error e
         | Except.ok files => mifidBody files startD endD button selected dl) with
  | Except.ok msgs => msgs
  | Except.error e => [Msg.err ("MiFID error: " ++ e)]

/-- The FIRDS panel body (lines 84–110): warn and stop on an empty table;
otherwise apply the ISIN and CFI filters, render the count, the first 100
rows and the full CSV, and, when rows remain, the grouped-first instrument
summary (first 50 rows and its CSV). -/
def firdsBody (files : Table) (isinInput cfiInput : String) :
    Except String (List Msg) :=
  if dfEmpty files then Except.ok [Msg.warn "No FIRDS metadata available."]
  else
    match firdsFilterIsin files isinInput with
    | Except.error e => Except.error e
    | Except.ok f1 =>
      match firdsFilterCfi f1 cfiInput with
      | Except.error e => Except.error e
      | Except.ok f2 =>
        let base := [Msg.header (toString f2.rows.length ++ " records found"),
                     Msg.dataframe (headN f2 100),
                     Msg.download "firds_filtered.csv" (toCsvRows f2)]
        if !dfEmpty f2 then
          match groupbyFirst f2 "isin" ["issuer_name", "maturity_date", "cfi_code"] with
          | Except.error e => Except.error e
          | Except.ok summary =>
            Except.ok (base ++
              [Msg.dataframe (headN summary 50),
               Msg.download "firds_summary.csv" (toCsvRows summary)])
        else Except.ok base

/-- The FIRDS panel with its `try`/`except` boundary (lines 83, 111–112). -/
def firdsPanel (load : Except String Table) (isinInput cfiInput : String) :
    List Msg :=
  match (match load with
         | Except.error e => Except.error e
         | Except.ok files => firdsBody files isinInput cfiInput) with
  | Except.ok msgs => msgs
  | Except.error e => [Msg.err ("FIRDS error: " ++ e)]

/-- The SSR panel body (lines 118–142): warn and stop on an empty table;
otherwise apply the issuer filter, render the count, the first 100 rows
and the full CSV, and, when a `publication_date` column exists, build the
month column in place and chart the grouped monthly counts. -/
def ssrBody (df : Table) (issuerInput : String) : Except String (List Msg) :=
  if dfEmpty df then Except.ok [Msg.warn "No SSR data."]
  else
    match ssrFilterIssuer df issuerInput with
    | Except.error e => Except.error e
    | Except.ok d1 =>
      let base := [Msg.header (toString d1.rows.length ++ " records found"),
                   Msg.dataframe (headN d1 100),
                   Msg.download "ssr_filtered.csv" (toCsvRows d1)]
      if d1.cols.contains "publication_date" then
        match groupbySize (ssrPrepareTrend d1) "month" with
        | Except.error e => Except.error e
        | Except.ok trend => Except.ok (base ++ [Msg.chart trend])
      else Except.ok base

/-- The SSR panel with its `try`/`except` boundary (lines 117, 143–144). -/
def ssrPanel (load : Except String Table) (issuerInput : String) : List Msg :=
  match (match load with
         | Except.error e => Except.error e
         | Except.ok df => ssrBody df issuerInput) with
  | Except.ok msgs => msgs
  | Except.error e => [Msg.err ("SSR error: " ++ e)]

/-- The latest publication date of a table (lines 151, 158):
`safe_datetime(col).max()` over the column; absent column is a `KeyError`,
and when no cell holds a valid date the maximum is NaT and the subsequent
`.date()` call raises. -/
def latestDate (t : Table) (c : String) : Except String Int :=
  if t.cols.contains c then
    match (t.rows.filterMap (fun r =>
        match coerceDatetime (cell r c) with
        | Value.vdate d => some d
        | _ => none)).max? with
    | some m => Except.ok m
    | none => Except.error "NaTType does not support date"
  else Except.error ("KeyError: " ++ c)

/-- The MiFID freshness footer (lines 149–153): on success one caption;
any exception hits the bare `except: pass` and produces no output at
all. -/
def freshnessMifid (load : Except String Table) : List Msg :=
  match (match load with
         | Except.error e => Except.error e
         | Except.ok files =>
           (latestDate files "publication_date").map (fun m =>
             [Msg.header ("Latest MiFID publication: " ++ toString m)])) with
  | Except.ok msgs => msgs
  | Except.error _ => []

/-- The FIRDS freshness footer (lines 155–160): the caption is guarded by
a column-presence check (a missing column writes nothing, without error);
any exception hits the bare `except: pass` and produces no output. -/
def freshnessFirds (load : Except String Table) : List Msg :=
  match (match load with
         | Except.error e => Except.error e
         | Except.ok files =>
           if files.cols.contains "publication_date" then
             (latestDate files "publication_date").map (fun m =>
               [Msg.header ("Latest FIRDS publication: " ++ toString m)])
           else Except.ok []) with
  | Except.ok msgs => msgs
  | Except.error _ => []

/-- The sidebar radio choice of line 25. -/
inductive Dataset where
  | mifid | firds | ssr
deriving DecidableEq

/-- One run of the script: the selected dataset panel followed by the two
freshness sections.  Each section performs its own collaborator call, so
each takes its own loader outcome. -/
def appRun (choice : Dataset)
    (mifidLoad firdsLoad ssrLoad freshMifidLoad freshFirdsLoad : Except String Table)
    (startD endD : Int) (button : Bool) (selected : List String)
    (dl : Value → Except String Table)
    (isinInput cfiInput issuerInput : String) : List Msg :=
  (match choice with
   | Dataset.mifid => mifidPanel mifidLoad startD endD button selected dl
   | Dataset.firds => firdsPanel firdsLoad isinInput cfiInput
   | Dataset.ssr => ssrPanel ssrLoad issuerInput)
  ++ freshnessMifid freshMifidLoad ++ freshnessFirds freshFirdsLoad

deriving instance DecidableEq for Except

/-- Rewriting every entry of a column leaves a `some`-lookup at the new
value: the first matching entry of the mapped row is `(c, v)`. -/
theorem rowGet_setCell_found (r : Row) (c : String) (v : Value)
    (h : (rowGet r c).isSome = true) :
    rowGet (r.map (fun p => if p.1 == c then (c, v) else p)) c = some v := by
  induction r with
  | nil => simp [rowGet] at h
  | cons p tl ih =>
    by_cases hp : p.1 == c
    · simp [rowGet, List.find?, hp]
    · have h2 : (rowGet tl c).isSome = true := by
        simpa [rowGet, List.find?, hp] using h
      simpa [rowGet, List.find?, hp] using ih h2

/-- A lookup that misses the first list continues in the second. -/
theorem rowGet_append_none (r1 r2 : Row) (c : String)
    (h : rowGet r1 c = none) :
    rowGet (r1 ++ r2) c = rowGet r2 c := by
  induction r1 with
  | nil => rfl
  | cons p tl ih =>
    by_cases hp : p.1 == c
    · simp [rowGet, List.find?, hp] at h
    · have h2 : rowGet tl c = none := by
        simpa [rowGet, List.find?, hp] using h
      simpa [rowGet, List.find?, hp] using ih h2

/-- Reading back the column just written by `setCell` yields the written
value. -/
theorem cell_setCell (r : Row) (c : String) (v : Value) :
    cell (setCell r c v) c = v := by
  unfold cell setCell
  by_cases h : (rowGet r c).isSome
  · rw [if_pos h, rowGet_setCell_found r c v h]; rfl
  · rw [if_neg h]
    have hr : rowGet r c = none := by
      cases hh : rowGet r c
      · rfl
      · rw [hh] at h; simp at h
    rw [rowGet_append_none r [(c, v)] c hr]
    simp [rowGet, List.find?]

/-- A `filterMap` whose function succeeds on every element preserves the
length. -/
theorem length_filterMap_all_some {α β : Type} (f : α → Option β) (l : List α)
    (h : ∀ x ∈ l, (f x).isSome = true) :
    (l.filterMap f).length = l.length := by
  induction l with
  | nil => rfl
  | cons a tl ih =>
    have ha := h a (List.mem_cons_self a tl)
    rw [List.filterMap_cons]
    cases hfa : f a with
    | none => rw [hfa] at ha; simp at ha
    | some b =>
      simp [List.length_cons, ih (fun x hx => h x (List.mem_cons_of_mem a hx))]

/-- The Scenario-A table of the specification: three rows with issuer
values `"Acme Corp"`, `"acme Ltd"`, `"Other"`. -/
def issuerRow (s : String) : Row := [("issuer_name", Value.vstr s)]

def scenarioATable : Table :=
  Table.mk ["issuer_name"] [issuerRow "Acme Corp", issuerRow "acme Ltd", issuerRow "Other"]

/-- A one-row FIRDS metadata table whose ISIN cell is `"Acme Corp"`. -/
def c1Row : Row := [("isin", Value.vstr "Acme Corp")]

def c1Table : Table := Table.mk ["isin"] [c1Row]

/-- C1: the claim says every substring filter is case-insensitive by
default, so filtering the cell `"Acme Corp"` by the needle `"acme"` should
keep the row.  The FIRDS ISIN filter (line 94 calls `str.contains` without
`case=False`, on the uppercased needle `"ACME"`) drops it: the result has
no rows, although the needle is a case-insensitive substring of the
stringified cell. -/
theorem C1_counterexample :
    firdsFilterIsin c1Table "acme" = Except.ok (Table.mk ["isin"] []) ∧
    strContains false (astypeStr (cell c1Row "isin")) "acme" = true := by
  constructor
  · rfl
  · rfl

/-- C1 (amended): null cells never raise (they are stringified) and a row
is kept exactly when the needle is a substring of the stringified cell
value — but the case mode differs per filter: the SSR issuer filter is
case-insensitive (`case=False`), while the FIRDS ISIN filter is
case-sensitive on the stripped-and-uppercased needle (pandas default
`case=True`).  Scenario A holds for the SSR issuer filter: issuers
`"Acme Corp"`, `"acme Ltd"`, `"Other"` filtered by `"acme"` yield exactly
the first two rows. -/
theorem C1_amended (t : Table) (input : String)
    (hIss : t.cols.contains "issuer_name" = true)
    (hIsin : t.cols.contains "isin" = true)
    (hne : strIsEmpty (stripStr input) = false)
    (hneU : strIsEmpty (strUpper (stripStr input)) = false)
    (hre : regexFree (stripStr input) = true)
    (hreU : regexFree (strUpper (stripStr input)) = true) :
    ssrFilterIssuer t input = Except.ok { t with rows := t.rows.filter (fun r =>
        containsSubstr (strLower (astypeStr (cell r "issuer_name")))
          (strLower (stripStr input))) } ∧
    firdsFilterIsin t input = Except.ok { t with rows := t.rows.filter (fun r =>
        containsSubstr (astypeStr (cell r "isin")) (strUpper (stripStr input))) } ∧
    ssrFilterIssuer scenarioATable "acme" =
      Except.ok (Table.mk ["issuer_name"] [issuerRow "Acme Corp", issuerRow "acme Ltd"]) := by
  have hIss2 : "issuer_name" ∈ t.cols := by simpa using hIss
  have hIsin2 : "isin" ∈ t.cols := by simpa using hIsin
  refine ⟨?_, ?_, ?_⟩
  · simp [ssrFilterIssuer, substrFilter, strContains, hne, hIss2, hre]
  · simp [firdsFilterIsin, substrFilter, strContains, hneU, hIsin2, hreU]
  · decide

/-- Witness for `C1_amended` at a concrete table and input. -/
theorem C1_amended_witness :
    ssrFilterIssuer (Table.mk ["issuer_name", "isin"]
        [[("issuer_name", Value.vstr "Acme Corp"), ("isin", Value.vstr "XS1")]]) "acme" =
      Except.ok { Table.mk ["issuer_name", "isin"]
          [[("issuer_name", Value.vstr "Acme Corp"), ("isin", Value.vstr "XS1")]] with
        rows := (Table.mk ["issuer_name", "isin"]
          [[("issuer_name", Value.vstr "Acme Corp"), ("isin", Value.vstr "XS1")]]).rows.filter
            (fun r => containsSubstr (strLower (astypeStr (cell r "issuer_name")))
              (strLower (stripStr "acme"))) } :=
  (C1_amended (Table.mk ["issuer_name", "isin"]
      [[("issuer_name", Value.vstr "Acme Corp"), ("isin", Value.vstr "XS1")]]) "acme"
    rfl rfl rfl rfl rfl rfl).1

/-- A nonempty table with no `isin` column. -/
def c2Table : Table := Table.mk ["foo"] [[("foo", Value.vstr "x")]]

/-- C2: the claim says a filter whose column is absent is a no-op that
signals a recoverable warning and never makes the panel abort with an
error.  On a nonempty table without an `isin` column, the FIRDS panel's
only output is the error banner: the filter raised a `KeyError`, the
panel aborted, and nothing else (no table, no download, no summary) was
rendered. -/
theorem C2_counterexample :
    firdsPanel (Except.ok c2Table) "X" "" = [Msg.err "FIRDS error: KeyError: isin"] := by
  rfl

/-- C2 (amended): a filter criterion whose column is absent from the
table is not a no-op — selecting the column raises a key-lookup error,
which aborts the remaining panel steps; the panel's `try`/`except`
boundary catches it and turns the whole panel into a single error
banner (so the error does stay inside the panel, but as a failure, not a
recoverable warning). -/
theorem C2_amended (t : Table) (isinInput cfiInput : String)
    (hrows : t.rows.isEmpty = false)
    (hcol : t.cols.contains "isin" = false)
    (hne : strIsEmpty (strUpper (stripStr isinInput)) = false) :
    firdsFilterIsin t isinInput = Except.error "KeyError: isin" ∧
    firdsPanel (Except.ok t) isinInput cfiInput =
      [Msg.err "FIRDS error: KeyError: isin"] := by
  have hcol2 : "isin" ∉ t.cols := by simpa using hcol
  have hfil : firdsFilterIsin t isinInput = Except.error "KeyError: isin" := by
    simp [firdsFilterIsin, substrFilter, hne, hcol2]
  refine ⟨hfil, ?_⟩
  have hrows2 : ¬ (t.rows = []) := by
    intro h
    rw [h] at hrows
    simp at hrows
  simp [firdsPanel, firdsBody, dfEmpty, hrows2, hfil]

/-- Witness for `C2_amended` at a concrete table and inputs. -/
theorem C2_amended_witness :
    firdsFilterIsin c2Table "X" = Except.error "KeyError: isin" ∧
    firdsPanel (Except.ok c2Table) "X" "" = [Msg.err "FIRDS error: KeyError: isin"] :=
  C2_amended c2Table "X" "" rfl rfl rfl

/-- Assigning to an existing column leaves the column list unchanged. -/
theorem assignCol_cols_of_contains (t : Table) (c : String) (f : Row → Value)
    (h : t.cols.contains c = true) : (assignCol t c f).cols = t.cols := by
  unfold assignCol
  rw [if_pos h]

/-- The date-range filter on a present column returns the filtered
table. -/
theorem dateRangeFilter_ok (t : Table) (c : String) (startD endD : Int)
    (h : t.cols.contains c = true) :
    dateRangeFilter t c startD endD = Except.ok { t with
      rows := t.rows.filter (fun r =>
        match cell r c with
        | Value.vdate d => decide (startD ≤ d) && decide (d ≤ endD)
        | _ => false) } := by
  unfold dateRangeFilter
  rw [if_pos h]

/-- The publication-date coercion on a present column returns the
rewritten table. -/
theorem mifidCoercePubDate_ok (t : Table)
    (h : t.cols.contains "publication_date" = true) :
    mifidCoercePubDate t = Except.ok (assignCol t "publication_date"
      (fun r => coerceDatetime (cell r "publication_date"))) := by
  unfold mifidCoercePubDate
  rw [if_pos h]

/-- The MiFID coerce-then-filter date pipeline characterized: it never
raises when the column exists, and it keeps exactly the rows whose raw
publication-date cell survives `dateKept` (coerce, then inclusive
comparison), with the cell rewritten to its coerced value. -/
theorem mifidDateFilter_eq (t : Table) (startD endD : Int)
    (hcol : t.cols.contains "publication_date" = true) :
    mifidDateFilter t startD endD = Except.ok
      { cols := t.cols,
        rows := (t.rows.filter (fun r =>
            dateKept (cell r "publication_date") startD endD)).map (fun r =>
          setCell r "publication_date" (coerceDatetime (cell r "publication_date"))) } := by
  have hc2 : (assignCol t "publication_date"
      (fun r => coerceDatetime (cell r "publication_date"))).cols.contains
        "publication_date" = true := by
    rw [assignCol_cols_of_contains t _ _ hcol]
    exact hcol
  unfold mifidDateFilter
  rw [mifidCoercePubDate_ok t hcol]
  show dateRangeFilter (assignCol t "publication_date"
      (fun r => coerceDatetime (cell r "publication_date"))) "publication_date"
      startD endD = _
  rw [dateRangeFilter_ok _ _ _ _ hc2]
  congr 1
  rw [Table.mk.injEq]
  constructor
  · exact assignCol_cols_of_contains t _ _ hcol
  · show ((t.rows.map (fun r => setCell r "publication_date"
        (coerceDatetime (cell r "publication_date")))).filter _) = _
    rw [List.filter_map]
    have hfun : ((fun r : Row =>
        match cell r "publication_date" with
        | Value.vdate d => decide (startD ≤ d) && decide (d ≤ endD)
        | _ => false) ∘ (fun r : Row =>
          setCell r "publication_date" (coerceDatetime (cell r "publication_date")))) =
        (fun r : Row => dateKept (cell r "publication_date") startD endD) := by
      funext r
      show (match cell (setCell r "publication_date"
          (coerceDatetime (cell r "publication_date"))) "publication_date" with
        | Value.vdate d => decide (startD ≤ d) && decide (d ≤ endD)
        | _ => false) = dateKept (cell r "publication_date") startD endD
      rw [cell_setCell]
      rfl
    rw [hfun]

/-- A table with publication dates on, inside and outside the bounds
`[0, 10]`, plus a null and an unparseable cell. -/
def pdRowOf (v : Value) : Row := [("publication_date", v)]

def c3Table : Table :=
  Table.mk ["publication_date"]
    [pdRowOf (Value.vdate 0), pdRowOf (Value.vdate 10), pdRowOf (Value.vdate 11),
     pdRowOf Value.vnull, pdRowOf (Value.vstr "garbage")]

/-- C3: both bounds of the date-range filter are inclusive — a row whose
date equals `startD` or `endD` is kept, a row one unit outside either
bound is dropped — and a row whose date cell is null or unparseable
(coerced to NaT by `safe_datetime`) is excluded without any error being
raised: with the column present the pipeline always returns a table. -/
theorem C3_date_range_inclusive (t : Table) (startD endD : Int)
    (hcol : t.cols.contains "publication_date" = true) (hse : startD ≤ endD) :
    mifidDateFilter t startD endD = Except.ok
      { cols := t.cols,
        rows := (t.rows.filter (fun r =>
            dateKept (cell r "publication_date") startD endD)).map (fun r =>
          setCell r "publication_date" (coerceDatetime (cell r "publication_date"))) } ∧
    dateKept (Value.vdate startD) startD endD = true ∧
    dateKept (Value.vdate endD) startD endD = true ∧
    dateKept (Value.vdate (startD - 1)) startD endD = false ∧
    dateKept (Value.vdate (endD + 1)) startD endD = false ∧
    (∀ s, dateKept (Value.vstr s) startD endD = false) ∧
    dateKept Value.vnull startD endD = false := by
  refine ⟨mifidDateFilter_eq t startD endD hcol, ?_, ?_, ?_, ?_, ?_, ?_⟩
  · simp [dateKept, coerceDatetime, hse]
  · simp [dateKept, coerceDatetime, hse]
  · simp [dateKept, coerceDatetime]
  · simp [dateKept, coerceDatetime]
  · intro s
    rfl
  · rfl

/-- Witness for `C3_date_range_inclusive` at the concrete table and the
bounds `[0, 10]`. -/
theorem C3_witness :
    mifidDateFilter c3Table 0 10 = Except.ok
      { cols := c3Table.cols,
        rows := (c3Table.rows.filter (fun r =>
            dateKept (cell r "publication_date") 0 10)).map (fun r =>
          setCell r "publication_date" (coerceDatetime (cell r "publication_date"))) } ∧
    dateKept (Value.vdate 0) 0 10 = true ∧
    dateKept (Value.vdate 10) 0 10 = true ∧
    dateKept (Value.vdate (0 - 1)) 0 10 = false ∧
    dateKept (Value.vdate (10 + 1)) 0 10 = false ∧
    dateKept Value.vnull 0 10 = false := by
  have h := C3_date_range_inclusive c3Table 0 10 rfl (by decide)
  exact ⟨h.1, h.2.1, h.2.2.1, h.2.2.2.1, h.2.2.2.2.1, h.2.2.2.2.2.2⟩

/-- Insertion into a list is a permutation of consing. -/
theorem insertSorted_perm (a : String) (l : List String) :
    (insertSorted a l).Perm (a :: l) := by
  induction l with
  | nil => exact List.Perm.refl _
  | cons b bs ih =>
    unfold insertSorted
    by_cases h : leStr a b = true
    · rw [if_pos h]
    · rw [if_neg h]
      exact (ih.cons b).trans (List.Perm.swap a b bs)

/-- Sorting the keys permutes them. -/
theorem sortKeys_perm (l : List String) : (sortKeys l).Perm l := by
  induction l with
  | nil => exact List.Perm.refl _
  | cons a as ih => exact (insertSorted_perm a (sortKeys as)).trans (ih.cons a)

/-- C4: an empty table from the loader and an exception raised by the
loader take disjoint code paths in every panel — the empty table is a
successful result answered with a "no data" warning banner, the exception
is answered with an error banner, and a warning banner is never an error
banner. -/
theorem C4_empty_vs_exception
    (tm tf ts : Table) (startD endD : Int) (button : Bool)
    (selected : List String) (dl : Value → Except String Table)
    (isinInput cfiInput issuerInput : String)
    (hm : tm.rows.isEmpty = true) (hf : tf.rows.isEmpty = true)
    (hs : ts.rows.isEmpty = true) :
    mifidPanel (Except.ok tm) startD endD button selected dl =
      [Msg.warn "No MiFID metadata found."] ∧
    firdsPanel (Except.ok tf) isinInput cfiInput =
      [Msg.warn "No FIRDS metadata available."] ∧
    ssrPanel (Except.ok ts) issuerInput = [Msg.warn "No SSR data."] ∧
    (∀ e, mifidPanel (Except.error e) startD endD button selected dl =
      [Msg.err ("MiFID error: " ++ e)]) ∧
    (∀ e, firdsPanel (Except.error e) isinInput cfiInput =
      [Msg.err ("FIRDS error: " ++ e)]) ∧
    (∀ e, ssrPanel (Except.error e) issuerInput =
      [Msg.err ("SSR error: " ++ e)]) ∧
    (∀ s e, Msg.warn s ≠ Msg.err e) := by
  have hm2 : tm.rows = [] := by simpa using hm
  have hf2 : tf.rows = [] := by simpa using hf
  have hs2 : ts.rows = [] := by simpa using hs
  refine ⟨?_, ?_, ?_, fun e => rfl, fun e => rfl, fun e => rfl,
    fun s e h => Msg.noConfusion h⟩
  · simp [mifidPanel, mifidBody, dfEmpty, hm2]
  · simp [firdsPanel, firdsBody, dfEmpty, hf2]
  · simp [ssrPanel, ssrBody, dfEmpty, hs2]

/-- Witness for `C4_empty_vs_exception` on concrete empty tables. -/
theorem C4_witness :
    mifidPanel (Except.ok (Table.mk ["publication_date"] [])) 0 1 false []
      (fun _ => Except.error "net") = [Msg.warn "No MiFID metadata found."] ∧
    firdsPanel (Except.ok (Table.mk ["isin"] [])) "" "" =
      [Msg.warn "No FIRDS metadata available."] ∧
    ssrPanel (Except.ok (Table.mk ["issuer_name"] [])) "" =
      [Msg.warn "No SSR data."] :=
  (fun h => ⟨h.1, h.2.1, h.2.2.1⟩)
    (C4_empty_vs_exception (Table.mk ["publication_date"] []) (Table.mk ["isin"] [])
      (Table.mk ["issuer_name"] []) 0 1 false [] (fun _ => Except.error "net")
      "" "" "" rfl rfl rfl)

/-- A FIRDS metadata table whose `isin` column is entirely null. -/
def c5NullRow (s : String) : Row :=
  [("isin", Value.vnull), ("issuer_name", Value.vstr s),
   ("maturity_date", Value.vnull), ("cfi_code", Value.vnull)]

def c5Table : Table :=
  Table.mk ["isin", "issuer_name", "maturity_date", "cfi_code"]
    [c5NullRow "A", c5NullRow "B"]

/-- C5: the claim says rows whose group key is null are grouped under one
synthetic `"unknown"` key and are not silently dropped.  On a two-row
table whose `isin` column is entirely null, the grouped-first summary has
zero rows: `groupby` dropped both rows, and no `"unknown"` group
exists. -/
theorem C5_counterexample :
    groupbyFirst c5Table "isin" ["issuer_name", "maturity_date", "cfi_code"] =
      Except.ok (Table.mk ["isin", "issuer_name", "maturity_date", "cfi_code"] []) ∧
    c5Table.rows.length = 2 := by
  exact ⟨rfl, rfl⟩

/-- C5 (amended): when the group column is entirely null, the aggregation
still returns a well-defined result without raising, but that result is
the *empty* table — pandas `groupby` defaults to `dropna=True`, so the
null-keyed rows are silently dropped and no synthetic `"unknown"` key is
created. -/
theorem C5_all_null_group (t : Table) (valCols : List String)
    (hk : t.cols.contains "isin" = true)
    (hv : valCols.all (fun c => t.cols.contains c) = true)
    (hnull : ∀ r ∈ t.rows, cell r "isin" = Value.vnull) :
    groupbyFirst t "isin" valCols = Except.ok (Table.mk ("isin" :: valCols) []) := by
  have hkeys : groupKeys t "isin" = [] := by
    unfold groupKeys
    rw [List.filterMap_eq_nil_iff]
    intro r hr
    rw [hnull r hr]
  unfold groupbyFirst
  rw [if_pos (by rw [hk, hv]; rfl)]
  rw [hkeys]
  rfl

/-- Witness for `C5_all_null_group` at the concrete all-null table. -/
theorem C5_witness :
    groupbyFirst c5Table "isin" ["issuer_name", "maturity_date", "cfi_code"] =
      Except.ok (Table.mk ("isin" :: ["issuer_name", "maturity_date", "cfi_code"]) []) :=
  C5_all_null_group c5Table ["issuer_name", "maturity_date", "cfi_code"] rfl rfl
    (by decide)

/-- Assigning to a new column appends it to the column list. -/
theorem assignCol_cols_of_not_contains (t : Table) (c : String) (f : Row → Value)
    (h : t.cols.contains c = false) : (assignCol t c f).cols = t.cols ++ [c] := by
  unfold assignCol
  rw [if_neg (by simpa using h)]

/-- A loaded SSR table as observed before the trend step. -/
def c6Table : Table :=
  Table.mk ["publication_date"] [[("publication_date", Value.vdate 5)]]

/-- C6: the claim says no pipeline operation mutates a table in place, so
the loaded table observed after any step equals the one observed before.
The SSR trend step writes `df["publication_date"] = ...` and
`df["month"] = ...` into the loaded frame itself (lines 133–134): on a
concrete loaded table the post-state differs from the pre-state — the
frame now carries a `month` column. -/
theorem C6_counterexample :
    (ssrPrepareTrend c6Table).cols = ["publication_date", "month"] ∧
    c6Table.cols = ["publication_date"] ∧
    ssrPrepareTrend c6Table ≠ c6Table := by
  refine ⟨rfl, rfl, fun h => ?_⟩
  have hc := congrArg Table.cols h
  rw [show (ssrPrepareTrend c6Table).cols = ["publication_date", "month"] from rfl] at hc
  simp [c6Table] at hc

/-- C6 (amended): the column-assignment steps do mutate the loaded table —
after the SSR trend preparation the same frame carries an extra `month`
column, so it no longer equals its pre-state — whereas the boolean-mask
filter steps build a new table whose rows are a sublist of the input's
rows and whose column list is unchanged, leaving the input untouched. -/
theorem C6_mutating_assignments (t tf t2 : Table) (c needle : String) (cs : Bool)
    (hpd : t.cols.contains "publication_date" = true)
    (hmo : t.cols.contains "month" = false)
    (hf : substrFilter tf c needle cs = Except.ok t2) :
    (ssrPrepareTrend t).cols = t.cols ++ ["month"] ∧
    ssrPrepareTrend t ≠ t ∧
    t2.cols = tf.cols ∧
    t2.rows.Sublist tf.rows := by
  have h1 : (assignCol t "publication_date"
      (fun r => coerceDatetime (cell r "publication_date"))).cols = t.cols :=
    assignCol_cols_of_contains t _ _ hpd
  have hcols : (ssrPrepareTrend t).cols = t.cols ++ ["month"] := by
    unfold ssrPrepareTrend
    rw [assignCol_cols_of_not_contains _ _ _ (by rw [h1]; exact hmo), h1]
  refine ⟨hcols, fun h => ?_, ?_, ?_⟩
  · have hc := congrArg Table.cols h
    rw [hcols] at hc
    have := congrArg List.length hc
    simp at this
  · unfold substrFilter at hf
    by_cases hc : tf.cols.contains c = true
    · rw [if_pos hc] at hf
      by_cases hre : regexFree needle = true
      · rw [if_pos hre] at hf
        injection hf with h2
        rw [← h2]
      · rw [if_neg hre] at hf
        exact Except.noConfusion hf
    · rw [if_neg hc] at hf
      exact Except.noConfusion hf
  · unfold substrFilter at hf
    by_cases hc : tf.cols.contains c = true
    · rw [if_pos hc] at hf
      by_cases hre : regexFree needle = true
      · rw [if_pos hre] at hf
        injection hf with h2
        rw [← h2]
        exact List.filter_sublist tf.rows
      · rw [if_neg hre] at hf
        exact Except.noConfusion hf
    · rw [if_neg hc] at hf
      exact Except.noConfusion hf

/-- Witness for `C6_mutating_assignments` at concrete tables. -/
theorem C6_witness :
    (ssrPrepareTrend c6Table).cols = c6Table.cols ++ ["month"] ∧
    ssrPrepareTrend c6Table ≠ c6Table ∧
    (Table.mk ["issuer_name"] [issuerRow "Acme Corp", issuerRow "acme Ltd"]).cols =
      scenarioATable.cols ∧
    (Table.mk ["issuer_name"]
      [issuerRow "Acme Corp", issuerRow "acme Ltd"]).rows.Sublist scenarioATable.rows :=
  C6_mutating_assignments c6Table scenarioATable
    (Table.mk ["issuer_name"] [issuerRow "Acme Corp", issuerRow "acme Ltd"])
    "issuer_name" "acme" false rfl rfl rfl

/-- A table whose grouping column holds one null and one string key. -/
def c7Table : Table := Table.mk ["g"] [[("g", Value.vnull)], [("g", Value.vstr "a")]]

/-- C7: the claim says the counts of the grouped-count aggregation sum to
the row count for every grouping column.  On a two-row table whose
grouping column holds one null, `groupby(...).size()` counts only the one
non-null key: the counts sum to 1, not 2 — the null-keyed row is not
counted in any group. -/
theorem C7_counterexample :
    groupbySize c7Table "g" = Except.ok [("a", 1)] ∧
    c7Table.rows.length = 2 ∧
    (([("a", 1)] : List (String × Nat)).map Prod.snd).sum = 1 := by
  exact ⟨rfl, rfl, rfl⟩

/-- C7 (amended): when every value of the grouping column is a non-null
key, every row is counted in exactly one group and the counts of
`groupby(...).size()` sum to the row count; rows with a null group key
are dropped by `groupby` and excluded from every count. -/
theorem C7_sum_law (t : Table) (c : String)
    (hcol : t.cols.contains c = true)
    (hval : t.rows.all (fun r => match cell r c with
      | Value.vstr _ => true
      | _ => false) = true) :
    groupbySize t c = Except.ok ((sortKeys (groupKeys t c).dedup).map
      (fun k => (k, (groupKeys t c).count k))) ∧
    (((sortKeys (groupKeys t c).dedup).map
      (fun k => (k, (groupKeys t c).count k))).map Prod.snd).sum = t.rows.length := by
  constructor
  · unfold groupbySize
    rw [if_pos hcol]
  · rw [List.map_map]
    have h1 : (Prod.snd ∘ fun k => (k, (groupKeys t c).count k)) =
        (fun k => (groupKeys t c).count k) := rfl
    rw [h1]
    rw [((sortKeys_perm (groupKeys t c).dedup).map
      (fun k => (groupKeys t c).count k)).sum_eq]
    rw [List.sum_map_count_dedup_eq_length]
    unfold groupKeys
    apply length_filterMap_all_some
    intro r hr
    have hp := List.all_eq_true.mp hval r hr
    cases hcell : cell r c with
    | vstr s => rfl
    | vdate d => rw [hcell] at hp; simp at hp
    | vnull => rw [hcell] at hp; simp at hp

/-- A table whose grouping column is entirely non-null. -/
def c7AllTable : Table :=
  Table.mk ["g"] [[("g", Value.vstr "b")], [("g", Value.vstr "a")], [("g", Value.vstr "b")]]

/-- Witness for `C7_sum_law` at a concrete all-string grouping column. -/
theorem C7_witness :
    groupbySize c7AllTable "g" = Except.ok ((sortKeys (groupKeys c7AllTable "g").dedup).map
      (fun k => (k, (groupKeys c7AllTable "g").count k))) ∧
    (((sortKeys (groupKeys c7AllTable "g").dedup).map
      (fun k => (k, (groupKeys c7AllTable "g").count k))).map Prod.snd).sum =
      c7AllTable.rows.length :=
  C7_sum_law c7AllTable "g" rfl (by decide)

/-- C8: an exception inside a dataset panel's pipeline is caught at that
panel's `try`/`except` boundary and becomes exactly one user-visible error
banner; nothing propagates out of the panel, and the freshness sections'
output depends only on their own collaborator calls, so a failing panel
leaves them untouched.  The freshness sections themselves catch their
exceptions with a bare `except: pass` and emit nothing. -/
theorem C8_panel_boundary (e : String)
    (firdsLoad ssrLoad freshMifidLoad freshFirdsLoad : Except String Table)
    (startD endD : Int) (button : Bool) (selected : List String)
    (dl : Value → Except String Table)
    (isinInput cfiInput issuerInput : String) :
    mifidPanel (Except.error e) startD endD button selected dl =
      [Msg.err ("MiFID error: " ++ e)] ∧
    firdsPanel (Except.error e) isinInput cfiInput =
      [Msg.err ("FIRDS error: " ++ e)] ∧
    ssrPanel (Except.error e) issuerInput = [Msg.err ("SSR error: " ++ e)] ∧
    appRun Dataset.mifid (Except.error e) firdsLoad ssrLoad freshMifidLoad
        freshFirdsLoad startD endD button selected dl isinInput cfiInput issuerInput =
      [Msg.err ("MiFID error: " ++ e)] ++ freshnessMifid freshMifidLoad ++
        freshnessFirds freshFirdsLoad ∧
    freshnessMifid (Except.error e) = [] ∧
    freshnessFirds (Except.error e) = [] := by
  exact ⟨rfl, rfl, rfl, rfl, rfl, rfl⟩

/-- A filtered table with 101 identical rows, one more than the preview
cutoff. -/
def c9Table : Table :=
  Table.mk ["a"] (List.replicate 101 [("a", Value.vstr "x")])

/-- C9: the on-screen preview is `head(100)` — at most the first 100 rows
in order — while the CSV download serializes every row (one header record
plus one record per row, each row in its original position); hence when
the filtered table has more than 100 rows the CSV covers strictly more
rows than were displayed. -/
theorem C9_preview_vs_export (t : Table) :
    (headN t 100).rows = t.rows.take 100 ∧
    (headN t 100).rows.length ≤ 100 ∧
    (toCsvRows t).length = t.rows.length + 1 ∧
    (∀ i : Nat, (toCsvRows t)[i + 1]? = (t.rows[i]?).map (csvRow t.cols)) ∧
    (100 < t.rows.length → (headN t 100).rows.length < t.rows.length) := by
  refine ⟨rfl, ?_, ?_, ?_, ?_⟩
  · show (t.rows.take 100).length ≤ 100
    exact List.length_take_le 100 t.rows
  · simp [toCsvRows]
  · intro i
    show (t.cols :: t.rows.map (csvRow t.cols))[i + 1]? = _
    rw [List.getElem?_cons_succ]
    exact List.getElem?_map (csvRow t.cols) t.rows i
  · intro h
    show (t.rows.take 100).length < t.rows.length
    rw [List.length_take]
    omega

/-- Witness for `C9_preview_vs_export` at the 101-row table. -/
theorem C9_witness :
    (headN c9Table 100).rows.length < c9Table.rows.length ∧
    (toCsvRows c9Table).length = c9Table.rows.length + 1 :=
  ⟨(C9_preview_vs_export c9Table).2.2.2.2 (by simp [c9Table]),
   (C9_preview_vs_export c9Table).2.2.1⟩

/-- C10: in the MiFID download loop, a selected file whose metadata row
has neither a truthy `download_link` nor a truthy `downloadUrl` is skipped
with a warning, and the loop continues with the remaining selected files
and the accumulator unchanged; every row a download contributes carries a
`source_file` cell holding the name of the file it came from, and
concatenation appends the downloaded rows after the rows already
combined. -/
theorem C10_skip_and_tag (filtered : Table) (dl : Value → Except String Table)
    (fname : String) (rest : List String) (combined : Table) (msgs : List Msg)
    (r : Row) (tl : List Row) (df : Table) (fn : String) (rr : Row) (a b : Table)
    (hrow : filtered.rows.filter
      (fun q => cell q "file_name" == Value.vstr fname) = r :: tl)
    (hurl : pyTruthy (rowUrl r) = false)
    (hrr : rr ∈ (assignCol df "source_file" (fun _ => Value.vstr fn)).rows) :
    downloadLoop filtered dl (fname :: rest) combined msgs =
      downloadLoop filtered dl rest combined
        (msgs ++ [Msg.warn ("No download URL for " ++ fname)]) ∧
    cell rr "source_file" = Value.vstr fn ∧
    (concatTables a b).rows = a.rows ++ b.rows := by
  refine ⟨?_, ?_, rfl⟩
  · have hstep : downloadLoop filtered dl (fname :: rest) combined msgs =
        match filtered.rows.filter
          (fun q => cell q "file_name" == Value.vstr fname) with
        | [] => Except.error "IndexError: single positional indexer is out-of-bounds"
        | r :: _ =>
          if pyTruthy (rowUrl r) then
            match dl ((rowUrl r).getD Value.vnull) with
            | Except.error e => Except.error e
            | Except.ok df =>
              downloadLoop filtered dl rest
                (concatTables combined
                  (assignCol df "source_file" (fun _ => Value.vstr fname))) msgs
          else
            downloadLoop filtered dl rest combined
              (msgs ++ [Msg.warn ("No download URL for " ++ fname)]) := rfl
    rw [hstep, hrow]
    show (if pyTruthy (rowUrl r) then _ else _) = _
    rw [if_neg (by simp [hurl])]
  · have hrr2 : rr ∈ df.rows.map
        (fun q => setCell q "source_file" (Value.vstr fn)) := hrr
    rcases List.mem_map.mp hrr2 with ⟨q, _, hline⟩
    rw [← hline]
    exact cell_setCell q _ _

/-- A one-file MiFID metadata table whose download link is the empty
string (falsy), a downloaded one-row table, and its tagged row. -/
def c10Meta : Table :=
  Table.mk ["file_name", "download_link"]
    [[("file_name", Value.vstr "a.csv"), ("download_link", Value.vstr "")]]

def c10Row : Row := [("file_name", Value.vstr "a.csv"), ("download_link", Value.vstr "")]

def c10Df : Table := Table.mk ["x"] [[("x", Value.vstr "1")]]

def c10Tagged : Row := [("x", Value.vstr "1"), ("source_file", Value.vstr "b.csv")]

/-- Witness for `C10_skip_and_tag` at concrete tables. -/
theorem C10_witness :
    downloadLoop c10Meta (fun _ => Except.error "net") ["a.csv"] emptyDF [] =
      downloadLoop c10Meta (fun _ => Except.error "net") [] emptyDF
        ([] ++ [Msg.warn ("No download URL for " ++ "a.csv")]) ∧
    cell c10Tagged "source_file" = Value.vstr "b.csv" ∧
    (concatTables emptyDF c10Meta).rows = emptyDF.rows ++ c10Meta.rows :=
  C10_skip_and_tag c10Meta (fun _ => Except.error "net") "a.csv" [] emptyDF []
    c10Row [] c10Df "b.csv" c10Tagged emptyDF c10Meta rfl rfl (by decide)

end EsmaApp
